import Mathlib

/-!
Verification of the fixture-building utilities of `examples/exampleUtils.py`
(amplifier geometry construction, detector construction, and the raw/dark/flat
exposure synthesizers).

The Python code manipulates `lsst.afw.geom` integer boxes (`BoxI`): a box has an
integer minimum point and integer dimensions, and denotes the pixel set
`[x0, x0+w) x [y0, y0+h)` (empty when a dimension is non-positive).  We embed
boxes with `Int` coordinates and the operations the source uses: `shift`,
`flipLR`/`flipTB` (reflection inside a parent extent), and `include`
(bounding-box union, ignoring empty arguments, starting from the
default-constructed empty box, modelled as `Option Box` with `none` the empty
box).  Pixel values (Python floats) are modelled as exact rationals.
-/

/-- An integer box, as `lsst.afw.geom.BoxI`: minimum corner `(x0, y0)` and
dimensions `w x h`; it denotes the pixel set `[x0, x0+w) x [y0, y0+h)`. -/
structure Box where
  x0 : Int
  y0 : Int
  w : Int
  h : Int

deriving Repr, DecidableEq

deriving instance DecidableEq for Except

/-- Constructor `BoxI(PointI(x0, y0), ExtentI(w, h))`. -/
def mkBox (x0 y0 w h : Int) : Box := ⟨x0, y0, w, h⟩

/-- Operation `Box.shift(ExtentI(dx, dy))`. -/
def Box.shift (b : Box) (dx dy : Int) : Box := ⟨b.x0 + dx, b.y0 + dy, b.w, b.h⟩

/-- Operation `Box.flipLR(xextent)`: reflect the box horizontally inside
`[0, xextent)`. -/
def Box.flipLR (b : Box) (xextent : Int) : Box :=
  ⟨xextent - (b.x0 + b.w), b.y0, b.w, b.h⟩

/-- Operation `Box.flipTB(yextent)`: reflect the box vertically inside
`[0, yextent)`. -/
def Box.flipTB (b : Box) (yextent : Int) : Box :=
  ⟨b.x0, yextent - (b.y0 + b.h), b.w, b.h⟩

/-- Membership of a pixel in the set denoted by a box. -/
def Box.Mem (b : Box) (p : Int × Int) : Prop :=
  b.x0 ≤ p.1 ∧ p.1 < b.x0 + b.w ∧ b.y0 ≤ p.2 ∧ p.2 < b.y0 + b.h

instance (b : Box) (p : Int × Int) : Decidable (b.Mem p) := by
  unfold Box.Mem; exact inferInstance

/-- Boolean membership test (`Box.contains`). -/
def Box.contains (b : Box) (p : Int × Int) : Bool := decide (b.Mem p)

/-- Two boxes denote disjoint pixel sets. -/
def Box.Disjoint (a b : Box) : Prop := ∀ p : Int × Int, ¬ (a.Mem p ∧ b.Mem p)

/-- Every pixel of `a` is a pixel of `b`. -/
def Box.Sub (a b : Box) : Prop := ∀ p : Int × Int, a.Mem p → b.Mem p

/-- Boolean separation test: the two boxes are separated along some axis. -/
def Box.sep (a b : Box) : Bool :=
  decide (a.x0 + a.w ≤ b.x0) || decide (b.x0 + b.w ≤ a.x0) ||
  decide (a.y0 + a.h ≤ b.y0) || decide (b.y0 + b.h ≤ a.y0)

/-- Operation `BoxI.include(other)`: grow the accumulated bounding box to contain
`other`; an empty `other` is ignored, and the accumulator starts as the
default-constructed empty box (`none`). -/
def inclB (acc : Option Box) (b : Box) : Option Box :=
  if b.w ≤ 0 ∨ b.h ≤ 0 then acc
  else
    match acc with
    | none => some b
    | some a =>
        some ⟨min a.x0 b.x0, min a.y0 b.y0,
              max (a.x0 + a.w) (b.x0 + b.w) - min a.x0 b.x0,
              max (a.y0 + a.h) (b.y0 + b.h) - min a.y0 b.y0⟩

/-- The five amplifier sub-region boxes computed by `populateAmpBoxes`
(`dataBox`, `preBox`, `extBox`, `hOscanBox`, `vOscanBox`). -/
structure SubBoxes where
  dataB : Box
  preB : Box
  extB : Box
  hOscanB : Box
  vOscanB : Box

deriving Repr, DecidableEq

/-- Apply a box transformation to all five sub-region boxes (the source applies
`flipLR`/`flipTB`/`shift` to each of the five boxes in turn). -/
def SubBoxes.map (f : Box → Box) (sb : SubBoxes) : SubBoxes :=
  ⟨f sb.dataB, f sb.preB, f sb.extB, f sb.hOscanB, f sb.vOscanB⟩

/-- The five sub-region boxes of `populateAmpBoxes` before any mirroring or
translation (`exampleUtils.py` lines 35-50). -/
def localSubBoxes (nx ny nprescan nhoverscan nvoverscan nextended : Nat) : SubBoxes where
  dataB := (mkBox 0 0 nx ny).shift nextended nprescan
  preB := (mkBox 0 0 nx nprescan).shift nextended 0
  extB := (mkBox 0 0 nextended ny).shift 0 nprescan
  hOscanB := (mkBox 0 0 nhoverscan ny).shift (nextended + nx) nprescan
  vOscanB := (mkBox 0 0 nx nvoverscan).shift nextended (nprescan + ny)

/-- The `allBox` of `populateAmpBoxes` (lines 38, 52-56): the bounding box of the
five sub-region boxes, built by successive `include` calls; `getD` extracts the
box, with the default-constructed empty box when all five are empty. -/
def allBoxOf (sb : SubBoxes) : Box :=
  (inclB (inclB (inclB (inclB (inclB none sb.dataB) sb.preB) sb.extB) sb.hOscanB)
      sb.vOscanB).getD (mkBox 0 0 0 0)

/-- The five sub-region boxes as finally laid out by `populateAmpBoxes`
(lines 62-84): kept in the amplifier-local frame when `isPerAmp`, otherwise
mirrored according to the flip flags inside the raw extent and translated by
`(ix*xtot, iy*ytot)` into the mosaic frame. -/
def finalSubBoxes (nx ny nprescan nhoverscan nvoverscan nextended : Nat)
    (flipx flipy : Bool) (ix iy : Nat) (isPerAmp : Bool) : SubBoxes :=
  let sb := localSubBoxes nx ny nprescan nhoverscan nvoverscan nextended
  let ab := allBoxOf sb
  if isPerAmp then sb
  else
    let sb1 := if flipx then sb.map (·.flipLR ab.w) else sb
    let sb2 := if flipy then sb1.map (·.flipTB ab.h) else sb1
    sb2.map (·.shift ((ix : Int) * ab.w) ((iy : Int) * ab.h))

/-- The four readout corners (`lsst.afw.table` `LL`/`LR`/`UL`/`UR`). -/
inductive Corner where
  | LL
  | LR
  | UL
  | UR

deriving Repr, DecidableEq

/-- The readout-corner classification of `populateAmpBoxes` (lines 96-105):
an `if`/`elif` chain over the two flip booleans with a trailing
`raise ValueError` branch. -/
def readCorner (flipx flipy : Bool) : Except String Corner :=
  if flipx && flipy then .ok .UR
  else if flipx && !flipy then .ok .LR
  else if !flipx && flipy then .ok .UL
  else if !flipx && !flipy then .ok .LL
  else .error "Cannont determine read corner"

/-- The amplifier record fields set by `populateAmpBoxes` (lines 92-120) on the
`lsst.afw.table` amp-info record.  Note the extended-register box is computed
but never recorded.  Floats are modelled as rationals. -/
structure AmpRecord where
  bbox : Box
  name : String
  readoutCorner : Corner
  gain : ℚ
  saturation : ℚ
  readNoise : ℚ
  linearityCoeffs : List ℚ
  linearityType : String
  hasRawInfo : Bool
  rawFlipX : Bool
  rawFlipY : Bool
  rawBBox : Box
  rawXYOff : Int × Int
  rawDataBBox : Box
  rawHOverscanBBox : Box
  rawVOverscanBBox : Box
  rawPrescanBBox : Box

deriving Repr, DecidableEq

/-- Function `populateAmpBoxes(nx, ny, nprescan, nhoverscan, nvoverscan, nextended,
flipx, flipy, ix, iy, isPerAmp, record)`: build the amplifier record.  Sizes
and grid indices are the non-negative integers the callers pass.  In the
mosaicked branch (`not isPerAmp`) the source sets `flipx`/`flipy` to `False`
after mirroring, shifts `allBox`, and records a zero raw offset; in the
per-amp branch the boxes are left local and the offset is `(ix*xtot, iy*ytot)`.
The readout corner is classified from the (possibly cleared) flip flags, and
the `ValueError` branch is modelled as the `Except.error` case. -/
def populateAmpBoxes (nx ny nprescan nhoverscan nvoverscan nextended : Nat)
    (flipx flipy : Bool) (ix iy : Nat) (isPerAmp : Bool) : Except String AmpRecord :=
  let sb := finalSubBoxes nx ny nprescan nhoverscan nvoverscan nextended
      flipx flipy ix iy isPerAmp
  let ab0 := allBoxOf (localSubBoxes nx ny nprescan nhoverscan nvoverscan nextended)
  let xtot := ab0.w
  let ytot := ab0.h
  let rawAll := if isPerAmp then ab0 else ab0.shift ((ix : Int) * xtot) ((iy : Int) * ytot)
  let fx := if isPerAmp then flipx else false
  let fy := if isPerAmp then flipy else false
  let off : Int × Int := if isPerAmp then ((ix : Int) * xtot, (iy : Int) * ytot) else (0, 0)
  (readCorner fx fy).map fun c =>
    { bbox := (mkBox 0 0 nx ny).shift ((ix : Int) * nx) ((iy : Int) * ny)
      name := s!"A:{ix},{iy}"
      readoutCorner := c
      gain := 1
      saturation := 100000
      readNoise := 1
      linearityCoeffs := [0, 1, 0, 0]
      linearityType := "Polynomial"
      hasRawInfo := true
      rawFlipX := fx
      rawFlipY := fy
      rawBBox := rawAll
      rawXYOff := off
      rawDataBBox := sb.dataB
      rawHOverscanBBox := sb.hOscanB
      rawVOverscanBBox := sb.vOscanB
      rawPrescanBBox := sb.preB }

/-- Does an `Except` value carry an error (a raised Python exception)? -/
def raisesError {α : Type} : Except String α → Bool
  | .error _ => true
  | .ok _ => false

/-- The detector built by `createDetector` (lines 122-171): the amp-info
catalog in construction order and the detector bounding box
`(0,0)-(nAmpX*nPixX-1, nAmpY*nPixY-1)` of the detector config. -/
structure Detector where
  name : String
  amps : List AmpRecord
  bbox : Box

deriving Repr, DecidableEq

/-- Function `createDetector(nAmpX, nAmpY, nPixX, nPixY, pre, hOscan, vOscan, ext,
isPerAmp)` (lines 122-171).  The loop toggles `flipy` (initially `True`) at the
top of each row iteration and `flipx` (initially `True`) at the top of each
column iteration, so iteration `i` of either loop sees the flag `i % 2 == 1`.
Each record's gain is overwritten with `ix + iy*nAmpX + 1`. -/
def createDetector (nAmpX nAmpY nPixX nPixY pre hOscan vOscan ext : Nat)
    (isPerAmp : Bool) : Except String Detector :=
  ((List.range nAmpY).mapM fun iy =>
      (List.range nAmpX).mapM fun ix =>
        (populateAmpBoxes nPixX nPixY pre hOscan vOscan ext
            (decide (ix % 2 = 1)) (decide (iy % 2 = 1)) ix iy isPerAmp).map
          fun r => { r with gain := (ix : ℚ) + (iy : ℚ) * (nAmpX : ℚ) + 1 }).map
    fun rows =>
      { name := "TestDetector"
        amps := rows.flatten
        bbox := mkBox 0 0 ((nAmpX : Int) * nPixX) ((nAmpY : Int) * nPixY) }

/-- The corner actually chosen by the classification chain for each of the four
boolean flip combinations. -/
def cornerPure (flipx flipy : Bool) : Corner :=
  if flipx then (if flipy then .UR else .LR) else (if flipy then .UL else .LL)

/-- The record `populateAmpBoxes` produces when it does not raise (it never
does, see `readCorner_eq`). -/
def populateRecordPure (nx ny nprescan nhoverscan nvoverscan nextended : Nat)
    (flipx flipy : Bool) (ix iy : Nat) (isPerAmp : Bool) : AmpRecord :=
  let sb := finalSubBoxes nx ny nprescan nhoverscan nvoverscan nextended
      flipx flipy ix iy isPerAmp
  let ab0 := allBoxOf (localSubBoxes nx ny nprescan nhoverscan nvoverscan nextended)
  let xtot := ab0.w
  let ytot := ab0.h
  let rawAll := if isPerAmp then ab0 else ab0.shift ((ix : Int) * xtot) ((iy : Int) * ytot)
  let fx := if isPerAmp then flipx else false
  let fy := if isPerAmp then flipy else false
  let off : Int × Int := if isPerAmp then ((ix : Int) * xtot, (iy : Int) * ytot) else (0, 0)
  { bbox := (mkBox 0 0 nx ny).shift ((ix : Int) * nx) ((iy : Int) * ny)
    name := s!"A:{ix},{iy}"
    readoutCorner := cornerPure fx fy
    gain := 1
    saturation := 100000
    readNoise := 1
    linearityCoeffs := [0, 1, 0, 0]
    linearityType := "Polynomial"
    hasRawInfo := true
    rawFlipX := fx
    rawFlipY := fy
    rawBBox := rawAll
    rawXYOff := off
    rawDataBBox := sb.dataB
    rawHOverscanBBox := sb.hOscanB
    rawVOverscanBBox := sb.vOscanB
    rawPrescanBBox := sb.preB }

/-- The five sub-region boxes are pairwise disjoint. -/
def SubBoxes.PairwiseDisj (sb : SubBoxes) : Prop :=
  sb.dataB.Disjoint sb.preB ∧ sb.dataB.Disjoint sb.extB ∧ sb.dataB.Disjoint sb.hOscanB ∧
  sb.dataB.Disjoint sb.vOscanB ∧ sb.preB.Disjoint sb.extB ∧ sb.preB.Disjoint sb.hOscanB ∧
  sb.preB.Disjoint sb.vOscanB ∧ sb.extB.Disjoint sb.hOscanB ∧ sb.extB.Disjoint sb.vOscanB ∧
  sb.hOscanB.Disjoint sb.vOscanB

/-- Every pixel covered by one of the five sub-region boxes lies in `big`. -/
def SubBoxes.UnionSub (sb : SubBoxes) (big : Box) : Prop :=
  ∀ p : Int × Int,
    sb.dataB.Mem p ∨ sb.preB.Mem p ∨ sb.extB.Mem p ∨ sb.hOscanB.Mem p ∨ sb.vOscanB.Mem p →
    big.Mem p

/-- A detector image: rational pixel value at every integer coordinate.  The
fixture synthesizers only ever write axis-aligned rectangular sub-images, so a
total function is an adequate model of the afw image buffer. -/
def Image : Type := Int × Int → ℚ

/-- Model of `subim = im.Factory(im, box); subim.set/assign(...)`: overwrite the pixels
of `box` with the values of `f`, leaving all other pixels unchanged. -/
def setBoxF (img : Image) (b : Box) (f : Int × Int → ℚ) : Image :=
  fun p => if b.Mem p then f p else img p

/-- Value written by `makeRaw` (lines 269-277) at pixel `p` of an amplifier's
raw data box: start from 5000, multiply by the row gradient
`interp(r, (0, nRows-1), (1, 1-gradient)) = 1 - gradient*r/(nRows-1)` where
`r` is the row inside the sub-image, add `darkval*exptime`, divide by the
amplifier gain, and add `oscan`. -/
def rawDataValue (darkval oscan gradient exptime : ℚ) (amp : AmpRecord)
    (p : Int × Int) : ℚ :=
  (5000 * (1 - gradient * ((p.2 - amp.rawDataBBox.y0 : Int) : ℚ)
        / ((amp.rawDataBBox.h : ℚ) - 1))
      + darkval * exptime) / amp.gain + oscan

/-- One iteration of the `makeRaw` loop over the detector's amplifiers: fill
the raw data box, then overwrite the horizontal overscan box with `oscan`
(lines 268-279). -/
def rawAmpUpdate (darkval oscan gradient exptime : ℚ) (img : Image)
    (amp : AmpRecord) : Image :=
  setBoxF (setBoxF img amp.rawDataBBox (rawDataValue darkval oscan gradient exptime amp))
    amp.rawHOverscanBBox (fun _ => oscan)

/-- One iteration of the `makeDark` loop (lines 293-295): fill the amplifier's
science bounding box with the constant `darkval*exptime/gain`. -/
def darkAmpUpdate (darkval exptime : ℚ) (img : Image) (amp : AmpRecord) : Image :=
  setBoxF img amp.bbox (fun _ => darkval * exptime / amp.gain)

/-- Value written by `makeFlat` (lines 306-313) at pixel `p` of an amplifier's
science bounding box: 1 times the row gradient, divided by the gain. -/
def flatValue (gradient : ℚ) (amp : AmpRecord) (p : Int × Int) : ℚ :=
  (1 - gradient * ((p.2 - amp.bbox.y0 : Int) : ℚ) / ((amp.bbox.h : ℚ) - 1)) / amp.gain

/-- One iteration of the `makeFlat` loop over the detector's amplifiers. -/
def flatAmpUpdate (gradient : ℚ) (img : Image) (amp : AmpRecord) : Image :=
  setBoxF img amp.bbox (flatValue gradient amp)

/-- Modelled from the spec: `AssembleCcdTask.assembleCcd` (from `lsst.ip.isr`,
which is not present under `src/`) is an opaque collaborator that "takes a
mapping of amplifier-name -> exposure and a trim flag, returns one mosaicked
exposure with detector attached".  The spec gives no per-pixel formula for the
assembled mosaic, so the pixel content of the exposure returned by
`makeAssemblyInput` is left abstract: the fixture synthesizers below take it
as an explicit `base` image parameter and overwrite the regions they fill. -/
def assembledBase (base : Image) : Image := base

/-- Modelled from the spec: with `doTrim = True`, `AssembleCcdTask.assembleCcd`
returns a single mosaicked exposure containing only science pixels, so its
bounding box is the bounding box of the amplifiers' science-pixel boxes in
assembled coordinates (the union of the per-amplifier `bbox` entries). -/
def assembleTrimmedBBox (amps : List AmpRecord) : Option Box :=
  amps.foldl (fun acc a => inclB acc a.bbox) none

/-- The detector `makeAssemblyInput` builds for the per-amplifier input data
(line 241: `createDetector(nAmpX, nAmpY, nPixX, nPixY, pre, hOscan, vOscan,
ext, True)` with the constants of lines 220-238). -/
def makeAssemblyInputDetectorPerAmp : Except String Detector :=
  createDetector 3 2 512 1024 4 10 15 1 true

/-- The detector `makeAssemblyInput` attaches to the mosaicked output
(line 249, `isPerAmp = False`). -/
def makeAssemblyInputDetector : Except String Detector :=
  createDetector 3 2 512 1024 4 10 15 1 false

/-- The bounding box of the exposure returned by
`makeAssemblyInput(isPerAmp=False, doTrim=True)` (lines 243-251), under the
spec-modelled trimmed assembly `assembleTrimmedBBox`. -/
def makeAssemblyInputTrimmedBBox : Except String (Option Box) :=
  makeAssemblyInputDetectorPerAmp.map fun det => assembleTrimmedBBox det.amps

/-- The image of the exposure returned by `makeRaw(darkval, oscan, gradient,
exptime)` (lines 255-280): the mosaicked assembly output (abstract `base`),
overwritten per amplifier of the attached detector.  The detector iteration
order is the amp-catalog order of `createDetector`. -/
def makeRawImage (base : Image) (darkval oscan gradient exptime : ℚ) :
    Except String Image :=
  makeAssemblyInputDetector.map fun det =>
    det.amps.foldl (rawAmpUpdate darkval oscan gradient exptime) (assembledBase base)

/-- The image of the exposure returned by `makeDark(darkval, exptime)`
(lines 282-296), with the trimmed assembly output abstract as `base`. -/
def makeDarkImage (base : Image) (darkval exptime : ℚ) : Except String Image :=
  makeAssemblyInputDetector.map fun det =>
    det.amps.foldl (darkAmpUpdate darkval exptime) (assembledBase base)

/-- The image of the exposure returned by `makeFlat(gradient)` (lines 298-314),
with the trimmed assembly output abstract as `base`. -/
def makeFlatImage (base : Image) (gradient : ℚ) : Except String Image :=
  makeAssemblyInputDetector.map fun det =>
    det.amps.foldl (flatAmpUpdate gradient) (assembledBase base)

/-- The six amplifier records of the fixture detector
`createDetector(3, 2, 512, 1024, 4, 10, 15, 1, False)` attached to the
mosaicked fixture exposures, in amp-catalog order (grid order (0,0), (1,0),
(2,0), (0,1), (1,1), (2,1); the gains are kept in the arithmetic form the
builder produces). -/
def fixtureAmps : List AmpRecord :=
  [{ bbox := { x0 := 0, y0 := 0, w := 512, h := 1024 },
     name := "A:0,0",
     readoutCorner := Corner.LL,
     gain := ((0 : Nat) : ℚ) + ((0 : Nat) : ℚ) * ((3 : Nat) : ℚ) + 1,
     saturation := 100000,
     readNoise := 1,
     linearityCoeffs := [0, 1, 0, 0],
     linearityType := "Polynomial",
     hasRawInfo := true,
     rawFlipX := false,
     rawFlipY := false,
     rawBBox := { x0 := 0, y0 := 0, w := 523, h := 1043 },
     rawXYOff := (0, 0),
     rawDataBBox := { x0 := 1, y0 := 4, w := 512, h := 1024 },
     rawHOverscanBBox := { x0 := 513, y0 := 4, w := 10, h := 1024 },
     rawVOverscanBBox := { x0 := 1, y0 := 1028, w := 512, h := 15 },
     rawPrescanBBox := { x0 := 1, y0 := 0, w := 512, h := 4 } },
   { bbox := { x0 := 512, y0 := 0, w := 512, h := 1024 },
     name := "A:1,0",
     readoutCorner := Corner.LL,
     gain := ((1 : Nat) : ℚ) + ((0 : Nat) : ℚ) * ((3 : Nat) : ℚ) + 1,
     saturation := 100000,
     readNoise := 1,
     linearityCoeffs := [0, 1, 0, 0],
     linearityType := "Polynomial",
     hasRawInfo := true,
     rawFlipX := false,
     rawFlipY := false,
     rawBBox := { x0 := 523, y0 := 0, w := 523, h := 1043 },
     rawXYOff := (0, 0),
     rawDataBBox := { x0 := 533, y0 := 4, w := 512, h := 1024 },
     rawHOverscanBBox := { x0 := 523, y0 := 4, w := 10, h := 1024 },
     rawVOverscanBBox := { x0 := 533, y0 := 1028, w := 512, h := 15 },
     rawPrescanBBox := { x0 := 533, y0 := 0, w := 512, h := 4 } },
   { bbox := { x0 := 1024, y0 := 0, w := 512, h := 1024 },
     name := "A:2,0",
     readoutCorner := Corner.LL,
     gain := ((2 : Nat) : ℚ) + ((0 : Nat) : ℚ) * ((3 : Nat) : ℚ) + 1,
     saturation := 100000,
     readNoise := 1,
     linearityCoeffs := [0, 1, 0, 0],
     linearityType := "Polynomial",
     hasRawInfo := true,
     rawFlipX := false,
     rawFlipY := false,
     rawBBox := { x0 := 1046, y0 := 0, w := 523, h := 1043 },
     rawXYOff := (0, 0),
     rawDataBBox := { x0 := 1047, y0 := 4, w := 512, h := 1024 },
     rawHOverscanBBox := { x0 := 1559, y0 := 4, w := 10, h := 1024 },
     rawVOverscanBBox := { x0 := 1047, y0 := 1028, w := 512, h := 15 },
     rawPrescanBBox := { x0 := 1047, y0 := 0, w := 512, h := 4 } },
   { bbox := { x0 := 0, y0 := 1024, w := 512, h := 1024 },
     name := "A:0,1",
     readoutCorner := Corner.LL,
     gain := ((0 : Nat) : ℚ) + ((1 : Nat) : ℚ) * ((3 : Nat) : ℚ) + 1,
     saturation := 100000,
     readNoise := 1,
     linearityCoeffs := [0, 1, 0, 0],
     linearityType := "Polynomial",
     hasRawInfo := true,
     rawFlipX := false,
     rawFlipY := false,
     rawBBox := { x0 := 0, y0 := 1043, w := 523, h := 1043 },
     rawXYOff := (0, 0),
     rawDataBBox := { x0 := 1, y0 := 1058, w := 512, h := 1024 },
     rawHOverscanBBox := { x0 := 513, y0 := 1058, w := 10, h := 1024 },
     rawVOverscanBBox := { x0 := 1, y0 := 1043, w := 512, h := 15 },
     rawPrescanBBox := { x0 := 1, y0 := 2082, w := 512, h := 4 } },
   { bbox := { x0 := 512, y0 := 1024, w := 512, h := 1024 },
     name := "A:1,1",
     readoutCorner := Corner.LL,
     gain := ((1 : Nat) : ℚ) + ((1 : Nat) : ℚ) * ((3 : Nat) : ℚ) + 1,
     saturation := 100000,
     readNoise := 1,
     linearityCoeffs := [0, 1, 0, 0],
     linearityType := "Polynomial",
     hasRawInfo := true,
     rawFlipX := false,
     rawFlipY := false,
     rawBBox := { x0 := 523, y0 := 1043, w := 523, h := 1043 },
     rawXYOff := (0, 0),
     rawDataBBox := { x0 := 533, y0 := 1058, w := 512, h := 1024 },
     rawHOverscanBBox := { x0 := 523, y0 := 1058, w := 10, h := 1024 },
     rawVOverscanBBox := { x0 := 533, y0 := 1043, w := 512, h := 15 },
     rawPrescanBBox := { x0 := 533, y0 := 2082, w := 512, h := 4 } },
   { bbox := { x0 := 1024, y0 := 1024, w := 512, h := 1024 },
     name := "A:2,1",
     readoutCorner := Corner.LL,
     gain := ((2 : Nat) : ℚ) + ((1 : Nat) : ℚ) * ((3 : Nat) : ℚ) + 1,
     saturation := 100000,
     readNoise := 1,
     linearityCoeffs := [0, 1, 0, 0],
     linearityType := "Polynomial",
     hasRawInfo := true,
     rawFlipX := false,
     rawFlipY := false,
     rawBBox := { x0 := 1046, y0 := 1043, w := 523, h := 1043 },
     rawXYOff := (0, 0),
     rawDataBBox := { x0 := 1047, y0 := 1058, w := 512, h := 1024 },
     rawHOverscanBBox := { x0 := 1559, y0 := 1058, w := 10, h := 1024 },
     rawVOverscanBBox := { x0 := 1047, y0 := 1043, w := 512, h := 15 },
     rawPrescanBBox := { x0 := 1047, y0 := 2082, w := 512, h := 4 } }]

/-- The six amplifier records of the per-amplifier fixture detector
`createDetector(3, 2, 512, 1024, 4, 10, 15, 1, True)` used for the assembly
input data, in amp-catalog order. -/
def fixtureAmpsPerAmp : List AmpRecord :=
  [{ bbox := { x0 := 0, y0 := 0, w := 512, h := 1024 },
     name := "A:0,0",
     readoutCorner := Corner.LL,
     gain := ((0 : Nat) : ℚ) + ((0 : Nat) : ℚ) * ((3 : Nat) : ℚ) + 1,
     saturation := 100000,
     readNoise := 1,
     linearityCoeffs := [0, 1, 0, 0],
     linearityType := "Polynomial",
     hasRawInfo := true,
     rawFlipX := false,
     rawFlipY := false,
     rawBBox := { x0 := 0, y0 := 0, w := 523, h := 1043 },
     rawXYOff := (0, 0),
     rawDataBBox := { x0 := 1, y0 := 4, w := 512, h := 1024 },
     rawHOverscanBBox := { x0 := 513, y0 := 4, w := 10, h := 1024 },
     rawVOverscanBBox := { x0 := 1, y0 := 1028, w := 512, h := 15 },
     rawPrescanBBox := { x0 := 1, y0 := 0, w := 512, h := 4 } },
   { bbox := { x0 := 512, y0 := 0, w := 512, h := 1024 },
     name := "A:1,0",
     readoutCorner := Corner.LR,
     gain := ((1 : Nat) : ℚ) + ((0 : Nat) : ℚ) * ((3 : Nat) : ℚ) + 1,
     saturation := 100000,
     readNoise := 1,
     linearityCoeffs := [0, 1, 0, 0],
     linearityType := "Polynomial",
     hasRawInfo := true,
     rawFlipX := true,
     rawFlipY := false,
     rawBBox := { x0 := 0, y0 := 0, w := 523, h := 1043 },
     rawXYOff := (523, 0),
     rawDataBBox := { x0 := 1, y0 := 4, w := 512, h := 1024 },
     rawHOverscanBBox := { x0 := 513, y0 := 4, w := 10, h := 1024 },
     rawVOverscanBBox := { x0 := 1, y0 := 1028, w := 512, h := 15 },
     rawPrescanBBox := { x0 := 1, y0 := 0, w := 512, h := 4 } },
   { bbox := { x0 := 1024, y0 := 0, w := 512, h := 1024 },
     name := "A:2,0",
     readoutCorner := Corner.LL,
     gain := ((2 : Nat) : ℚ) + ((0 : Nat) : ℚ) * ((3 : Nat) : ℚ) + 1,
     saturation := 100000,
     readNoise := 1,
     linearityCoeffs := [0, 1, 0, 0],
     linearityType := "Polynomial",
     hasRawInfo := true,
     rawFlipX := false,
     rawFlipY := false,
     rawBBox := { x0 := 0, y0 := 0, w := 523, h := 1043 },
     rawXYOff := (1046, 0),
     rawDataBBox := { x0 := 1, y0 := 4, w := 512, h := 1024 },
     rawHOverscanBBox := { x0 := 513, y0 := 4, w := 10, h := 1024 },
     rawVOverscanBBox := { x0 := 1, y0 := 1028, w := 512, h := 15 },
     rawPrescanBBox := { x0 := 1, y0 := 0, w := 512, h := 4 } },
   { bbox := { x0 := 0, y0 := 1024, w := 512, h := 1024 },
     name := "A:0,1",
     readoutCorner := Corner.UL,
     gain := ((0 : Nat) : ℚ) + ((1 : Nat) : ℚ) * ((3 : Nat) : ℚ) + 1,
     saturation := 100000,
     readNoise := 1,
     linearityCoeffs := [0, 1, 0, 0],
     linearityType := "Polynomial",
     hasRawInfo := true,
     rawFlipX := false,
     rawFlipY := true,
     rawBBox := { x0 := 0, y0 := 0, w := 523, h := 1043 },
     rawXYOff := (0, 1043),
     rawDataBBox := { x0 := 1, y0 := 4, w := 512, h := 1024 },
     rawHOverscanBBox := { x0 := 513, y0 := 4, w := 10, h := 1024 },
     rawVOverscanBBox := { x0 := 1, y0 := 1028, w := 512, h := 15 },
     rawPrescanBBox := { x0 := 1, y0 := 0, w := 512, h := 4 } },
   { bbox := { x0 := 512, y0 := 1024, w := 512, h := 1024 },
     name := "A:1,1",
     readoutCorner := Corner.UR,
     gain := ((1 : Nat) : ℚ) + ((1 : Nat) : ℚ) * ((3 : Nat) : ℚ) + 1,
     saturation := 100000,
     readNoise := 1,
     linearityCoeffs := [0, 1, 0, 0],
     linearityType := "Polynomial",
     hasRawInfo := true,
     rawFlipX := true,
     rawFlipY := true,
     rawBBox := { x0 := 0, y0 := 0, w := 523, h := 1043 },
     rawXYOff := (523, 1043),
     rawDataBBox := { x0 := 1, y0 := 4, w := 512, h := 1024 },
     rawHOverscanBBox := { x0 := 513, y0 := 4, w := 10, h := 1024 },
     rawVOverscanBBox := { x0 := 1, y0 := 1028, w := 512, h := 15 },
     rawPrescanBBox := { x0 := 1, y0 := 0, w := 512, h := 4 } },
   { bbox := { x0 := 1024, y0 := 1024, w := 512, h := 1024 },
     name := "A:2,1",
     readoutCorner := Corner.UL,
     gain := ((2 : Nat) : ℚ) + ((1 : Nat) : ℚ) * ((3 : Nat) : ℚ) + 1,
     saturation := 100000,
     readNoise := 1,
     linearityCoeffs := [0, 1, 0, 0],
     linearityType := "Polynomial",
     hasRawInfo := true,
     rawFlipX := false,
     rawFlipY := true,
     rawBBox := { x0 := 0, y0 := 0, w := 523, h := 1043 },
     rawXYOff := (1046, 1043),
     rawDataBBox := { x0 := 1, y0 := 4, w := 512, h := 1024 },
     rawHOverscanBBox := { x0 := 513, y0 := 4, w := 10, h := 1024 },
     rawVOverscanBBox := { x0 := 1, y0 := 1028, w := 512, h := 15 },
     rawPrescanBBox := { x0 := 1, y0 := 0, w := 512, h := 4 } }]

/-- The record built for the C1 witness call. -/
def c1WitnessRecord : AmpRecord := populateRecordPure 1 1 1 1 1 1 false false 0 0 true

/-- The detector built for the C7 witness call `createDetector(1, 1, 1, 1, 0,
0, 0, 0, True)`. -/
def c7WitnessDetector : Detector :=
  { name := "TestDetector"
    amps := [{ populateRecordPure 1 1 0 0 0 0 false false 0 0 true with
               gain := ((0 : Nat) : ℚ) + ((0 : Nat) : ℚ) * ((1 : Nat) : ℚ) + 1 }]
    bbox := mkBox 0 0 1 1 }

/-- The fixture detector value, as attached to the mosaicked fixture
exposures. -/
def fixtureDetector : Detector :=
  { name := "TestDetector", amps := fixtureAmps, bbox := mkBox 0 0 1536 2048 }

/-- The all-zero image standing in for the abstract assembled base in the
witnesses. -/
def zeroImage : Image := fun _ => 0

/-- The first fixture amplifier (grid position `(0,0)`). -/
def fixtureAmp0 : AmpRecord := fixtureAmps.get ⟨0, by decide⟩

/-- The dark fixture image at `darkval = 2`, `exptime = 40` over the zero
base. -/
def darkWitnessImage : Image :=
  fixtureAmps.foldl (darkAmpUpdate 2 40) (assembledBase zeroImage)

/-- The flat fixture image at `gradient = 1` over the zero base. -/
def flatWitnessImage : Image :=
  fixtureAmps.foldl (flatAmpUpdate 1) (assembledBase zeroImage)

/-- The raw fixture image at `darkval = 2`, `oscan = 1000`, `gradient = 1`,
`exptime = 15` over the zero base. -/
def rawWitnessImage : Image :=
  fixtureAmps.foldl (rawAmpUpdate 2 1000 1 15) (assembledBase zeroImage)

/-- The raw fixture image at `darkval = 0`, `oscan = 1000`, `gradient = 0`,
`exptime = 0` over the zero base. -/
def rawCexImage : Image :=
  fixtureAmps.foldl (rawAmpUpdate 0 1000 0 0) (assembledBase zeroImage)

theorem Box.sep_disjoint {a b : Box} (h : Box.sep a b = true) : a.Disjoint b := by
  intro p hp
  rcases hp with ⟨ha, hb⟩
  rcases ha with ⟨h1, h2, h3, h4⟩
  rcases hb with ⟨h5, h6, h7, h8⟩
  simp only [Box.sep, Bool.or_eq_true, decide_eq_true_eq] at h
  omega

theorem readCorner_eq (flipx flipy : Bool) :
    readCorner flipx flipy = .ok (cornerPure flipx flipy) := by
  cases flipx <;> cases flipy <;> rfl

theorem populateAmpBoxes_eq (nx ny nprescan nhoverscan nvoverscan nextended : Nat)
    (flipx flipy : Bool) (ix iy : Nat) (isPerAmp : Bool) :
    populateAmpBoxes nx ny nprescan nhoverscan nvoverscan nextended
        flipx flipy ix iy isPerAmp
      = .ok (populateRecordPure nx ny nprescan nhoverscan nvoverscan nextended
        flipx flipy ix iy isPerAmp) := by
  cases isPerAmp <;> cases flipx <;> cases flipy <;> rfl

/-- With a non-empty science region, `allBox` spans exactly
`[0, nextended+nx+nhoverscan) x [0, nprescan+ny+nvoverscan)`. -/
theorem allBoxOf_local (nx ny npre nhos nvos next : Nat) (hnx : 0 < nx) (hny : 0 < ny) :
    allBoxOf (localSubBoxes nx ny npre nhos nvos next) =
      ⟨0, 0, (next : Int) + nx + nhos, (npre : Int) + ny + nvos⟩ := by
  unfold allBoxOf localSubBoxes inclB
  simp only [mkBox, Box.shift]
  split_ifs <;>
    first
      | (exfalso; omega)
      | (simp only [Option.getD_some, Box.mk.injEq]; refine ⟨by omega, by omega, by omega, by omega⟩)

/-- Closed form of the five final sub-region boxes: unchanged in the per-amp
branch; mirrored per the flip flags inside the raw extent and translated by
`(ix*xtot, iy*ytot)` in the mosaicked branch. -/
theorem finalSubBoxes_eq (nx ny npre nhos nvos next : Nat) (fx fy : Bool) (ix iy : Nat)
    (ipa : Bool) (hnx : 0 < nx) (hny : 0 < ny) :
    finalSubBoxes nx ny npre nhos nvos next fx fy ix iy ipa =
      (if ipa then localSubBoxes nx ny npre nhos nvos next
      else
        { dataB := ⟨(if fx then (nhos : Int) else next) + (ix : Int) * ((next : Int) + nx + nhos),
                    (if fy then (nvos : Int) else npre) + (iy : Int) * ((npre : Int) + ny + nvos), nx, ny⟩
          preB := ⟨(if fx then (nhos : Int) else next) + (ix : Int) * ((next : Int) + nx + nhos),
                   (if fy then (ny : Int) + nvos else 0) + (iy : Int) * ((npre : Int) + ny + nvos), nx, npre⟩
          extB := ⟨(if fx then (nx : Int) + nhos else 0) + (ix : Int) * ((next : Int) + nx + nhos),
                   (if fy then (nvos : Int) else npre) + (iy : Int) * ((npre : Int) + ny + nvos), next, ny⟩
          hOscanB := ⟨(if fx then 0 else (next : Int) + nx) + (ix : Int) * ((next : Int) + nx + nhos),
                      (if fy then (nvos : Int) else npre) + (iy : Int) * ((npre : Int) + ny + nvos), nhos, ny⟩
          vOscanB := ⟨(if fx then (nhos : Int) else next) + (ix : Int) * ((next : Int) + nx + nhos),
                      (if fy then 0 else (npre : Int) + ny) + (iy : Int) * ((npre : Int) + ny + nvos), nx, nvos⟩ }) := by
  have hab := allBoxOf_local nx ny npre nhos nvos next hnx hny
  cases ipa <;> cases fx <;> cases fy <;>
    simp only [finalSubBoxes, hab] <;>
    simp only [localSubBoxes, SubBoxes.map, Box.flipLR, Box.flipTB, Box.shift, mkBox,
      Bool.false_eq_true, if_true, if_false, ite_true, ite_false, reduceIte,
      SubBoxes.mk.injEq, Box.mk.injEq] <;>
    refine ⟨⟨?_, ?_, trivial, trivial⟩, ⟨?_, ?_, trivial, trivial⟩, ⟨?_, ?_, trivial, trivial⟩,
      ⟨?_, ?_, trivial, trivial⟩, ?_, ?_, trivial, trivial⟩ <;>
    ring

theorem createDetector_fixture :
    createDetector 3 2 512 1024 4 10 15 1 false =
      .ok { name := "TestDetector", amps := fixtureAmps, bbox := mkBox 0 0 1536 2048 } := by
  rfl

theorem createDetector_fixture_perAmp :
    createDetector 3 2 512 1024 4 10 15 1 true =
      .ok { name := "TestDetector", amps := fixtureAmpsPerAmp, bbox := mkBox 0 0 1536 2048 } := by
  rfl

theorem setBoxF_mem {img : Image} {b : Box} {f : Int × Int → ℚ} {p : Int × Int}
    (h : b.Mem p) : setBoxF img b f p = f p := by
  simp [setBoxF, h]

theorem setBoxF_not_mem {img : Image} {b : Box} {f : Int × Int → ℚ} {p : Int × Int}
    (h : ¬ b.Mem p) : setBoxF img b f p = img p := by
  simp [setBoxF, h]

/-- A fold of per-amplifier region updates leaves a pixel untouched when no
amplifier's written region covers it.  `T a p` reads "the update for `a`
writes pixel `p`". -/
theorem foldl_update_untouched (upd : Image → AmpRecord → Image)
    (T : AmpRecord → Int × Int → Prop)
    (hout : ∀ img a p, ¬ T a p → upd img a p = img p) :
    ∀ (l : List AmpRecord) (img : Image) (p : Int × Int),
      (∀ a ∈ l, ¬ T a p) → l.foldl upd img p = img p := by
  intro l
  induction l with
  | nil => intro img p _; rfl
  | cons b t ih =>
    intro img p h
    simp only [List.foldl_cons]
    rw [ih (upd img b) p fun a ha => h a (List.mem_cons_of_mem b ha)]
    exact hout img b p (h b (List.mem_cons_self b t))

/-- A fold of per-amplifier region updates evaluates, at a pixel written by
amplifier `a`, to the value `V a p` that `a`'s update writes, provided the
written regions of distinct amplifiers in the list are pairwise disjoint. -/
theorem foldl_update_eval (upd : Image → AmpRecord → Image)
    (T : AmpRecord → Int × Int → Prop) (V : AmpRecord → Int × Int → ℚ)
    (hout : ∀ img a p, ¬ T a p → upd img a p = img p)
    (hval : ∀ img a p, T a p → upd img a p = V a p) :
    ∀ (l : List AmpRecord) (img : Image) (p : Int × Int) (a : AmpRecord),
      l.Pairwise (fun x y => ∀ q, ¬ (T x q ∧ T y q)) → a ∈ l → T a p →
      l.foldl upd img p = V a p := by
  intro l
  induction l with
  | nil => intro img p a _ ha; exact absurd ha (List.not_mem_nil a)
  | cons b t ih =>
    intro img p a hpw ha hT
    rcases List.pairwise_cons.mp hpw with ⟨hb, ht⟩
    simp only [List.foldl_cons]
    rcases List.mem_cons.mp ha with rfl | hat
    · rw [foldl_update_untouched upd T hout t (upd img a) p
        fun c hc hTc => hb c hc p ⟨hT, hTc⟩]
      exact hval img a p hT
    · exact ih (upd img b) p a ht hat hT

/-- A `List.mapM` over `Except` whose function never fails returns `.ok` of
the corresponding `List.map`. -/
theorem mapM_ok_of_forall {α β : Type} (F : α → Except String β) (f : α → β) :
    ∀ l : List α, (∀ x ∈ l, F x = .ok (f x)) → l.mapM F = .ok (l.map f) := by
  intro l
  induction l with
  | nil => intro _; rfl
  | cons a t ih =>
    intro h
    rw [List.mapM_cons, h a (List.mem_cons_self a t),
      ih fun x hx => h x (List.mem_cons_of_mem a hx)]
    rfl

/-- Builder `createDetector` never raises: it returns the catalog of pure amplifier
records (row-major over the grid, flips toggling with the grid parities), each
with its gain overwritten. -/
theorem createDetector_eq (nAmpX nAmpY nPixX nPixY pre hOscan vOscan ext : Nat)
    (isPerAmp : Bool) :
    createDetector nAmpX nAmpY nPixX nPixY pre hOscan vOscan ext isPerAmp =
      .ok { name := "TestDetector"
            amps := ((List.range nAmpY).map fun iy => (List.range nAmpX).map fun ix =>
              { populateRecordPure nPixX nPixY pre hOscan vOscan ext
                  (decide (ix % 2 = 1)) (decide (iy % 2 = 1)) ix iy isPerAmp with
                  gain := (ix : ℚ) + (iy : ℚ) * (nAmpX : ℚ) + 1 }).flatten
            bbox := mkBox 0 0 ((nAmpX : Int) * nPixX) ((nAmpY : Int) * nPixY) } := by
  unfold createDetector
  rw [mapM_ok_of_forall _ _ _ fun iy _ =>
    mapM_ok_of_forall _ _ _ fun ix _ => by rw [populateAmpBoxes_eq]; rfl]
  rfl

/-- Indexing a flattened map of constant-inner-length lists. -/
theorem flatten_map_getElem {α β : Type} (f : β → List α) (k r : Nat) (hr : r < k) :
    ∀ (l : List β) (q : Nat), (∀ b ∈ l, (f b).length = k) →
      ((l.map f).flatten)[q * k + r]? = (l[q]?).bind fun b => (f b)[r]? := by
  intro l
  induction l with
  | nil => intro q _; simp
  | cons b t ih =>
    intro q h
    have hb : (f b).length = k := h b (List.mem_cons_self b t)
    cases q with
    | zero =>
      simp only [List.map_cons, List.flatten_cons, Nat.zero_mul, Nat.zero_add]
      rw [List.getElem?_append_left (by omega)]
      simp
    | succ q' =>
      simp only [List.map_cons, List.flatten_cons]
      rw [List.getElem?_append_right (by
        rw [hb, Nat.succ_mul]
        omega)]
      have : (q' + 1) * k + r - (f b).length = q' * k + r := by
        rw [hb, Nat.succ_mul]; omega
      rw [this, ih q' fun c hc => h c (List.mem_cons_of_mem b hc)]
      simp

/-- The five final sub-region boxes are pairwise disjoint, for both layout
branches. -/
theorem finalSubBoxes_pairwiseDisj (nx ny npre nhos nvos next : Nat) (fx fy : Bool)
    (ix iy : Nat) (ipa : Bool) (hnx : 0 < nx) (hny : 0 < ny) :
    (finalSubBoxes nx ny npre nhos nvos next fx fy ix iy ipa).PairwiseDisj := by
  rw [finalSubBoxes_eq nx ny npre nhos nvos next fx fy ix iy ipa hnx hny]
  cases ipa <;> cases fx <;> cases fy <;>
    simp only [Bool.false_eq_true, reduceIte, localSubBoxes, mkBox, Box.shift,
      SubBoxes.PairwiseDisj] <;>
    refine ⟨?_, ?_, ?_, ?_, ?_, ?_, ?_, ?_, ?_, ?_⟩ <;>
    (rintro p ⟨hp1, hp2⟩; simp only [Box.Mem] at hp1 hp2; omega)

/-- The raw bounding box recorded by `populateAmpBoxes`: the full raw extent,
at the origin in the per-amp branch and at the amplifier's mosaic tile in the
mosaicked branch. -/
theorem populateRecordPure_rawBBox (nx ny npre nhos nvos next : Nat) (fx fy : Bool)
    (ix iy : Nat) (ipa : Bool) (hnx : 0 < nx) (hny : 0 < ny) :
    (populateRecordPure nx ny npre nhos nvos next fx fy ix iy ipa).rawBBox =
      if ipa then (⟨0, 0, (next : Int) + nx + nhos, (npre : Int) + ny + nvos⟩ : Box)
      else ⟨(ix : Int) * ((next : Int) + nx + nhos), (iy : Int) * ((npre : Int) + ny + nvos),
            (next : Int) + nx + nhos, (npre : Int) + ny + nvos⟩ := by
  have hab := allBoxOf_local nx ny npre nhos nvos next hnx hny
  cases ipa <;> simp [populateRecordPure, hab, Box.shift]

/-- Every pixel of the five final sub-region boxes lies in the raw bounding
box recorded for the matching branch. -/
theorem finalSubBoxes_unionSub (nx ny npre nhos nvos next : Nat) (fx fy : Bool)
    (ix iy : Nat) (ipa : Bool) (hnx : 0 < nx) (hny : 0 < ny) :
    (finalSubBoxes nx ny npre nhos nvos next fx fy ix iy ipa).UnionSub
      (if ipa then (⟨0, 0, (next : Int) + nx + nhos, (npre : Int) + ny + nvos⟩ : Box)
       else ⟨(ix : Int) * ((next : Int) + nx + nhos), (iy : Int) * ((npre : Int) + ny + nvos),
             (next : Int) + nx + nhos, (npre : Int) + ny + nvos⟩) := by
  rw [finalSubBoxes_eq nx ny npre nhos nvos next fx fy ix iy ipa hnx hny]
  cases ipa <;> cases fx <;> cases fy <;>
    simp only [Bool.false_eq_true, reduceIte, localSubBoxes, mkBox, Box.shift,
      SubBoxes.UnionSub] <;>
    (intro p hp; simp only [Box.Mem] at hp ⊢; omega)

/-- C1 (amended): for every `populateAmpBoxes` call with positive `nx`, `ny`
and any non-negative prescan/overscan/extended sizes, the five computed
sub-region boxes (raw data, prescan, extended register, horizontal overscan,
vertical overscan) are pairwise disjoint and their union is contained in the
recorded raw bounding box; the raw data, prescan and the two overscan boxes
are recorded on the amplifier record (the extended-register box is computed
but not stored).  The union is in general a proper subset of the raw bounding
box: the raw box also contains unnamed corner regions. -/
theorem populateAmpBoxes_subregions (nx ny npre nhos nvos next : Nat) (fx fy : Bool)
    (ix iy : Nat) (ipa : Bool) (r : AmpRecord) (hnx : 0 < nx) (hny : 0 < ny)
    (hr : populateAmpBoxes nx ny npre nhos nvos next fx fy ix iy ipa = .ok r) :
    r.rawDataBBox = (finalSubBoxes nx ny npre nhos nvos next fx fy ix iy ipa).dataB ∧
    r.rawPrescanBBox = (finalSubBoxes nx ny npre nhos nvos next fx fy ix iy ipa).preB ∧
    r.rawHOverscanBBox = (finalSubBoxes nx ny npre nhos nvos next fx fy ix iy ipa).hOscanB ∧
    r.rawVOverscanBBox = (finalSubBoxes nx ny npre nhos nvos next fx fy ix iy ipa).vOscanB ∧
    (finalSubBoxes nx ny npre nhos nvos next fx fy ix iy ipa).PairwiseDisj ∧
    (finalSubBoxes nx ny npre nhos nvos next fx fy ix iy ipa).UnionSub r.rawBBox := by
  rw [populateAmpBoxes_eq] at hr
  injection hr with hr
  subst hr
  refine ⟨rfl, rfl, rfl, rfl,
    finalSubBoxes_pairwiseDisj nx ny npre nhos nvos next fx fy ix iy ipa hnx hny, ?_⟩
  rw [populateRecordPure_rawBBox nx ny npre nhos nvos next fx fy ix iy ipa hnx hny]
  exact finalSubBoxes_unionSub nx ny npre nhos nvos next fx fy ix iy ipa hnx hny

/-- Witness for C1 at `nx = ny = 1`, all border sizes `1`, no flips, grid
position `(0,0)`, per-amp layout. -/
theorem populateAmpBoxes_subregions_witness :
    populateAmpBoxes 1 1 1 1 1 1 false false 0 0 true = .ok c1WitnessRecord ∧
    (c1WitnessRecord.rawDataBBox = (finalSubBoxes 1 1 1 1 1 1 false false 0 0 true).dataB ∧
     c1WitnessRecord.rawPrescanBBox = (finalSubBoxes 1 1 1 1 1 1 false false 0 0 true).preB ∧
     c1WitnessRecord.rawHOverscanBBox = (finalSubBoxes 1 1 1 1 1 1 false false 0 0 true).hOscanB ∧
     c1WitnessRecord.rawVOverscanBBox = (finalSubBoxes 1 1 1 1 1 1 false false 0 0 true).vOscanB ∧
     (finalSubBoxes 1 1 1 1 1 1 false false 0 0 true).PairwiseDisj ∧
     (finalSubBoxes 1 1 1 1 1 1 false false 0 0 true).UnionSub c1WitnessRecord.rawBBox) :=
  ⟨by decide, populateAmpBoxes_subregions 1 1 1 1 1 1 false false 0 0 true c1WitnessRecord
    (by decide) (by decide) (by decide)⟩

/-- C1 counterexample to the claim as stated: at
`populateAmpBoxes(1, 1, 1, 1, 1, 1, False, False, 0, 0, True)` the pixel
`(0, 0)` lies in the recorded raw bounding box but in none of the five
sub-region boxes, so the union of the five boxes is not equal to the raw
bounding box. -/
theorem populateAmpBoxes_union_ne_rawBBox_cex :
    (populateAmpBoxes 1 1 1 1 1 1 false false 0 0 true).map (fun r =>
        (r.rawBBox.contains (0, 0), r.rawDataBBox.contains (0, 0),
         r.rawPrescanBBox.contains (0, 0), r.rawHOverscanBBox.contains (0, 0),
         r.rawVOverscanBBox.contains (0, 0),
         (finalSubBoxes 1 1 1 1 1 1 false false 0 0 true).extB.contains (0, 0)))
      = .ok (true, false, false, false, false, false) := by
  decide

/-- C2 (amended to per-amp calls): for `isPerAmp = True`, the readout corner
recorded by `populateAmpBoxes` is the fixed bijective image of the flip pair:
(T,T) gives upper-right, (T,F) lower-right, (F,T) upper-left, (F,F)
lower-left.  (For `isPerAmp = False` the flip flags are cleared before the
classification, so the corner is always lower-left.) -/
theorem populateAmpBoxes_readCorner_perAmp (nx ny npre nhos nvos next : Nat)
    (fx fy : Bool) (ix iy : Nat) :
    (populateAmpBoxes nx ny npre nhos nvos next fx fy ix iy true).map
        AmpRecord.readoutCorner
      = .ok (if fx then (if fy then Corner.UR else Corner.LR)
             else (if fy then Corner.UL else Corner.LL)) := by
  rw [populateAmpBoxes_eq]
  cases fx <;> cases fy <;> rfl

/-- C2 counterexample to the claim as stated: the mosaicked call
`populateAmpBoxes(1, 1, 0, 0, 0, 0, True, True, 0, 0, False)` records readout
corner lower-left, not the upper-right corner the claimed bijection assigns to
`(flipx, flipy) = (T, T)`. -/
theorem populateAmpBoxes_readCorner_mosaic_cex :
    (populateAmpBoxes 1 1 0 0 0 0 true true 0 0 false).map AmpRecord.readoutCorner
        = .ok Corner.LL ∧ Corner.LL ≠ Corner.UR := by
  decide

/-- C10: for every mosaicked call (`isPerAmp = False`), whatever flip flags
are passed in, the recorded readout corner is lower-left and the recorded
`RawFlipX`/`RawFlipY` flags are both `False`, because the flip flags are
cleared once the boxes have been mirrored. -/
theorem populateAmpBoxes_mosaic_clears_flips (nx ny npre nhos nvos next : Nat)
    (fx fy : Bool) (ix iy : Nat) :
    (populateAmpBoxes nx ny npre nhos nvos next fx fy ix iy false).map
        (fun r => (r.readoutCorner, r.rawFlipX, r.rawFlipY))
      = .ok (Corner.LL, false, false) := by
  rw [populateAmpBoxes_eq]
  rfl

/-- C9: the readout-corner classification never reaches its error branch: for
every pair of boolean flip arguments it succeeds, so `populateAmpBoxes` (whose
`ValueError` is the only explicit raise in the fixture builders) and
`createDetector` never raise. -/
theorem fixtureBuilders_raise_iff_unclassifiable :
    ∀ (nx ny npre nhos nvos next : Nat) (fx fy : Bool) (ix iy : Nat) (ipa : Bool),
      raisesError (readCorner fx fy) = false ∧
      raisesError (populateAmpBoxes nx ny npre nhos nvos next fx fy ix iy ipa) = false ∧
      raisesError (createDetector nx ny npre nhos nvos next ix iy ipa) = false := by
  intro nx ny npre nhos nvos next fx fy ix iy ipa
  refine ⟨?_, ?_, ?_⟩
  · cases fx <;> cases fy <;> rfl
  · rw [populateAmpBoxes_eq]; rfl
  · rw [createDetector_eq]; rfl

/-- C8: with `isPerAmp = True` the sub-region boxes are recorded un-mirrored
and un-translated in the amplifier-local frame and the raw XY offset is
`(ix*xtot, iy*ytot)` for the raw extent `xtot x ytot`; with
`isPerAmp = False` the boxes are mirrored per the flip flags and translated
into the mosaic frame, and the recorded offset is `(0, 0)`. -/
theorem populateAmpBoxes_frames (nx ny npre nhos nvos next : Nat) (fx fy : Bool)
    (ix iy : Nat) (hnx : 0 < nx) (hny : 0 < ny) :
    ((populateAmpBoxes nx ny npre nhos nvos next fx fy ix iy true).map fun r =>
        (r.rawDataBBox, r.rawPrescanBBox, r.rawHOverscanBBox, r.rawVOverscanBBox,
         r.rawBBox, r.rawXYOff))
      = .ok (⟨(next : Int), (npre : Int), (nx : Int), (ny : Int)⟩,
             ⟨(next : Int), 0, (nx : Int), (npre : Int)⟩,
             ⟨(next : Int) + nx, (npre : Int), (nhos : Int), (ny : Int)⟩,
             ⟨(next : Int), (npre : Int) + ny, (nx : Int), (nvos : Int)⟩,
             ⟨0, 0, (next : Int) + nx + nhos, (npre : Int) + ny + nvos⟩,
             ((ix : Int) * ((next : Int) + nx + nhos),
              (iy : Int) * ((npre : Int) + ny + nvos)))
    ∧
    ((populateAmpBoxes nx ny npre nhos nvos next fx fy ix iy false).map fun r =>
        (r.rawDataBBox, r.rawPrescanBBox, r.rawHOverscanBBox, r.rawVOverscanBBox,
         r.rawBBox, r.rawXYOff))
      = .ok (⟨(if fx then (nhos : Int) else next) + (ix : Int) * ((next : Int) + nx + nhos),
              (if fy then (nvos : Int) else npre) + (iy : Int) * ((npre : Int) + ny + nvos),
              (nx : Int), (ny : Int)⟩,
             ⟨(if fx then (nhos : Int) else next) + (ix : Int) * ((next : Int) + nx + nhos),
              (if fy then (ny : Int) + nvos else 0) + (iy : Int) * ((npre : Int) + ny + nvos),
              (nx : Int), (npre : Int)⟩,
             ⟨(if fx then 0 else (next : Int) + nx) + (ix : Int) * ((next : Int) + nx + nhos),
              (if fy then (nvos : Int) else npre) + (iy : Int) * ((npre : Int) + ny + nvos),
              (nhos : Int), (ny : Int)⟩,
             ⟨(if fx then (nhos : Int) else next) + (ix : Int) * ((next : Int) + nx + nhos),
              (if fy then 0 else (npre : Int) + ny) + (iy : Int) * ((npre : Int) + ny + nvos),
              (nx : Int), (nvos : Int)⟩,
             ⟨(ix : Int) * ((next : Int) + nx + nhos), (iy : Int) * ((npre : Int) + ny + nvos),
              (next : Int) + nx + nhos, (npre : Int) + ny + nvos⟩,
             (0, 0)) := by
  have hfin := finalSubBoxes_eq nx ny npre nhos nvos next fx fy ix iy
  have hraw := populateRecordPure_rawBBox nx ny npre nhos nvos next fx fy ix iy
  have hab := allBoxOf_local nx ny npre nhos nvos next hnx hny
  constructor
  · rw [populateAmpBoxes_eq]
    simp only [Except.map, populateRecordPure, hfin true hnx hny, hraw true hnx hny, hab,
      Bool.false_eq_true, reduceIte]
    simp only [localSubBoxes, mkBox, Box.shift, Except.ok.injEq, Prod.mk.injEq, Box.mk.injEq]
    norm_num
  · rw [populateAmpBoxes_eq]
    simp only [Except.map, populateRecordPure, hfin false hnx hny, hraw false hnx hny, hab,
      Bool.false_eq_true, reduceIte]
    simp only [Box.shift, Except.ok.injEq, Prod.mk.injEq, Box.mk.injEq]
    norm_num

/-- Witness for C8 at `nx = ny = 1`, zero border sizes, `flipx = True`,
`flipy = False`, grid position `(0,0)`. -/
theorem populateAmpBoxes_frames_witness :
    ((populateAmpBoxes 1 1 0 0 0 0 true false 0 0 true).map fun r =>
        (r.rawDataBBox, r.rawPrescanBBox, r.rawHOverscanBBox, r.rawVOverscanBBox,
         r.rawBBox, r.rawXYOff))
      = .ok (⟨0, 0, 1, 1⟩, ⟨0, 0, 1, 0⟩, ⟨1, 0, 0, 1⟩, ⟨0, 1, 1, 0⟩, ⟨0, 0, 1, 1⟩, (0, 0))
    ∧
    ((populateAmpBoxes 1 1 0 0 0 0 true false 0 0 false).map fun r =>
        (r.rawDataBBox, r.rawPrescanBBox, r.rawHOverscanBBox, r.rawVOverscanBBox,
         r.rawBBox, r.rawXYOff))
      = .ok (⟨0, 0, 1, 1⟩, ⟨0, 0, 1, 0⟩, ⟨0, 0, 0, 1⟩, ⟨0, 1, 1, 0⟩, ⟨0, 0, 1, 1⟩, (0, 0)) :=
  populateAmpBoxes_frames 1 1 0 0 0 0 true false 0 0 (by decide) (by decide)

/-- C7: in every detector built by `createDetector`, the amplifier added for
grid position `(ix, iy)` (catalog index `iy*nAmpX + ix`, following the
row-major construction order) has gain exactly `ix + iy*nAmpX + 1`. -/
theorem createDetector_gain (nAmpX nAmpY nPixX nPixY pre hOscan vOscan ext : Nat)
    (ipa : Bool) (ix iy : Nat) (det : Detector) (hx : ix < nAmpX) (hy : iy < nAmpY)
    (hdet : createDetector nAmpX nAmpY nPixX nPixY pre hOscan vOscan ext ipa = .ok det) :
    (det.amps[iy * nAmpX + ix]?).map AmpRecord.gain
      = some ((ix : ℚ) + (iy : ℚ) * (nAmpX : ℚ) + 1) := by
  rw [createDetector_eq] at hdet
  injection hdet with hdet
  subst hdet
  rw [flatten_map_getElem _ nAmpX ix hx _ iy (fun b _ => by simp)]
  rw [List.getElem?_range hy]
  simp [List.getElem?_map, List.getElem?_range hx]

/-- Witness for C7 on a 1x1 amplifier grid at grid position `(0,0)`. -/
theorem createDetector_gain_witness :
    (0 : Nat) < 1 ∧
    (c7WitnessDetector.amps[0 * 1 + 0]?).map AmpRecord.gain
      = some (((0 : Nat) : ℚ) + ((0 : Nat) : ℚ) * ((1 : Nat) : ℚ) + 1) :=
  ⟨by decide, createDetector_gain 1 1 1 1 0 0 0 0 true 0 0 c7WitnessDetector
    (by decide) (by decide) (by rfl)⟩

/-- C4: building the 3x2 detector of 512x1024 science pixels with 4-row
prescan, 10-column horizontal overscan, 15-row vertical overscan and 1-pixel
extended register, then assembling the per-amplifier fixtures with trimming
enabled (spec-modelled `assembleTrimmedBBox`), yields an exposure whose
trimmed bounding box is exactly 1536 x 2048 pixels, equal to the detector
bounding box `nAmpX*nPixX` by `nAmpY*nPixY`. -/
theorem makeAssemblyInput_trimmed_bbox :
    makeAssemblyInputTrimmedBBox = .ok (some (mkBox 0 0 1536 2048)) ∧
    makeAssemblyInputDetector.map Detector.bbox = .ok (mkBox 0 0 1536 2048) := by
  constructor
  · simp only [makeAssemblyInputTrimmedBBox, makeAssemblyInputDetectorPerAmp,
      createDetector_fixture_perAmp, Except.map]
    decide
  · simp only [makeAssemblyInputDetector, createDetector_fixture, Except.map]

/-- The science bounding boxes of the six fixture amplifiers are pairwise
disjoint. -/
theorem fixtureAmps_bbox_pairwise :
    fixtureAmps.Pairwise (fun x y => ∀ q, ¬ (x.bbox.Mem q ∧ y.bbox.Mem q)) := by
  have h : fixtureAmps.Pairwise (fun x y => Box.sep x.bbox y.bbox = true) := by
    decide
  exact h.imp fun hxy => Box.sep_disjoint hxy

/-- C5: in the exposure returned by `makeDark(darkval, exptime)`, every
science pixel of each amplifier of the attached detector holds exactly
`darkval * exptime / gain` for that amplifier's gain. -/
theorem makeDark_science_pixels (base : Image) (darkval exptime : ℚ) (det : Detector)
    (img : Image) (amp : AmpRecord) (p : Int × Int)
    (hdet : makeAssemblyInputDetector = .ok det)
    (himg : makeDarkImage base darkval exptime = .ok img)
    (hamp : amp ∈ det.amps) (hp : amp.bbox.Mem p) :
    img p = darkval * exptime / amp.gain := by
  rw [makeAssemblyInputDetector, createDetector_fixture] at hdet
  injection hdet with hdet
  subst hdet
  rw [makeDarkImage, makeAssemblyInputDetector, createDetector_fixture] at himg
  simp only [Except.map, Except.ok.injEq] at himg
  subst himg
  exact foldl_update_eval (darkAmpUpdate darkval exptime) (fun a q => a.bbox.Mem q)
    (fun a _ => darkval * exptime / a.gain)
    (fun img a p h => setBoxF_not_mem h)
    (fun img a p h => setBoxF_mem h)
    fixtureAmps (assembledBase base) p amp fixtureAmps_bbox_pairwise hamp hp

/-- C6: in the exposure returned by `makeFlat(gradient)`, the pixel in local
row `r = p.2 - bbox.y0` of an amplifier whose science region has `bbox.h`
rows holds exactly `(1 - gradient * r / (bbox.h - 1)) / gain`. -/
theorem makeFlat_pixels (base : Image) (gradient : ℚ) (det : Detector) (img : Image)
    (amp : AmpRecord) (p : Int × Int)
    (hdet : makeAssemblyInputDetector = .ok det)
    (himg : makeFlatImage base gradient = .ok img)
    (hamp : amp ∈ det.amps) (hp : amp.bbox.Mem p) :
    img p = (1 - gradient * ((p.2 - amp.bbox.y0 : Int) : ℚ) / ((amp.bbox.h : ℚ) - 1))
      / amp.gain := by
  rw [makeAssemblyInputDetector, createDetector_fixture] at hdet
  injection hdet with hdet
  subst hdet
  rw [makeFlatImage, makeAssemblyInputDetector, createDetector_fixture] at himg
  simp only [Except.map, Except.ok.injEq] at himg
  subst himg
  exact foldl_update_eval (flatAmpUpdate gradient) (fun a q => a.bbox.Mem q)
    (flatValue gradient)
    (fun img a p h => setBoxF_not_mem h)
    (fun img a p h => setBoxF_mem h)
    fixtureAmps (assembledBase base) p amp fixtureAmps_bbox_pairwise hamp hp

/-- The written regions (raw data box together with horizontal overscan box)
of distinct fixture amplifiers are pairwise disjoint. -/
theorem fixtureAmps_raw_pairwise :
    fixtureAmps.Pairwise (fun x y => ∀ q,
      ¬ ((x.rawDataBBox.Mem q ∨ x.rawHOverscanBBox.Mem q) ∧
         (y.rawDataBBox.Mem q ∨ y.rawHOverscanBBox.Mem q))) := by
  have h : fixtureAmps.Pairwise (fun x y =>
      (Box.sep x.rawDataBBox y.rawDataBBox && Box.sep x.rawDataBBox y.rawHOverscanBBox &&
       Box.sep x.rawHOverscanBBox y.rawDataBBox &&
       Box.sep x.rawHOverscanBBox y.rawHOverscanBBox) = true) := by
    decide
  refine h.imp ?_
  intro a b hab q hq
  simp only [Bool.and_eq_true] at hab
  obtain ⟨⟨⟨s1, s2⟩, s3⟩, s4⟩ := hab
  rcases hq with ⟨h1 | h2, h3 | h4⟩
  · exact Box.sep_disjoint s1 q ⟨h1, h3⟩
  · exact Box.sep_disjoint s2 q ⟨h1, h4⟩
  · exact Box.sep_disjoint s3 q ⟨h2, h3⟩
  · exact Box.sep_disjoint s4 q ⟨h2, h4⟩

/-- Update `rawAmpUpdate` leaves pixels outside the amplifier's raw data and
horizontal overscan boxes unchanged. -/
theorem rawAmpUpdate_untouched (darkval oscan gradient exptime : ℚ) :
    ∀ (img : Image) (a : AmpRecord) (p : Int × Int),
      ¬ (a.rawDataBBox.Mem p ∨ a.rawHOverscanBBox.Mem p) →
      rawAmpUpdate darkval oscan gradient exptime img a p = img p := by
  intro img a p h
  push_neg at h
  rw [rawAmpUpdate, setBoxF_not_mem h.2, setBoxF_not_mem h.1]

/-- The value `rawAmpUpdate` writes at a touched pixel: the overscan pedestal
inside the horizontal overscan box (written last), the science formula
elsewhere in the raw data box. -/
theorem rawAmpUpdate_value (darkval oscan gradient exptime : ℚ) :
    ∀ (img : Image) (a : AmpRecord) (p : Int × Int),
      (a.rawDataBBox.Mem p ∨ a.rawHOverscanBBox.Mem p) →
      rawAmpUpdate darkval oscan gradient exptime img a p =
        (if a.rawHOverscanBBox.Mem p then oscan
         else rawDataValue darkval oscan gradient exptime a p) := by
  intro img a p h
  by_cases hh : a.rawHOverscanBBox.Mem p
  · rw [rawAmpUpdate, setBoxF_mem hh, if_pos hh]
  · rcases h with hd | hh2
    · rw [rawAmpUpdate, setBoxF_not_mem hh, setBoxF_mem hd, if_neg hh]
    · exact absurd hh2 hh

/-- C3 (amended): in the exposure returned by `makeRaw(darkval, oscan,
gradient, exptime)`, every pixel of an amplifier's raw data region at local
row `r` holds `(5000 * (1 - gradient*r/(nRows-1)) + darkval*exptime) / gain
+ oscan` (the code adds the overscan pedestal to the science pixels as well),
and every pixel of the amplifier's horizontal overscan region holds `oscan`
(the vertical overscan region is not written by `makeRaw`). -/
theorem makeRaw_pixels (base : Image) (darkval oscan gradient exptime : ℚ)
    (det : Detector) (img : Image) (amp : AmpRecord) (p : Int × Int)
    (hdet : makeAssemblyInputDetector = .ok det)
    (himg : makeRawImage base darkval oscan gradient exptime = .ok img)
    (hamp : amp ∈ det.amps) :
    (amp.rawDataBBox.Mem p →
      img p = (5000 * (1 - gradient * ((p.2 - amp.rawDataBBox.y0 : Int) : ℚ)
            / ((amp.rawDataBBox.h : ℚ) - 1)) + darkval * exptime) / amp.gain + oscan) ∧
    (amp.rawHOverscanBBox.Mem p → img p = oscan) := by
  rw [makeAssemblyInputDetector, createDetector_fixture] at hdet
  injection hdet with hdet
  subst hdet
  rw [makeRawImage, makeAssemblyInputDetector, createDetector_fixture] at himg
  simp only [Except.map, Except.ok.injEq] at himg
  subst himg
  have hsep : ∀ a ∈ fixtureAmps, Box.sep a.rawDataBBox a.rawHOverscanBBox = true := by
    decide
  have hout := rawAmpUpdate_untouched darkval oscan gradient exptime
  have hval := rawAmpUpdate_value darkval oscan gradient exptime
  constructor
  · intro hd
    have hno : ¬ amp.rawHOverscanBBox.Mem p := fun hh =>
      Box.sep_disjoint (hsep amp hamp) p ⟨hd, hh⟩
    rw [foldl_update_eval _ _ _ hout hval fixtureAmps (assembledBase base) p amp
      fixtureAmps_raw_pairwise hamp (Or.inl hd)]
    rw [if_neg hno]
    rfl
  · intro hh
    rw [foldl_update_eval _ _ _ hout hval fixtureAmps (assembledBase base) p amp
      fixtureAmps_raw_pairwise hamp (Or.inr hh)]
    rw [if_pos hh]

/-- Witness for C5 at the first amplifier's pixel `(0, 0)`. -/
theorem makeDark_science_pixels_witness :
    makeAssemblyInputDetector = .ok fixtureDetector ∧
    makeDarkImage zeroImage 2 40 = .ok darkWitnessImage ∧
    fixtureAmp0 ∈ fixtureDetector.amps ∧
    fixtureAmp0.bbox.Mem (0, 0) ∧
    darkWitnessImage (0, 0) = 2 * 40 / fixtureAmp0.gain := by
  have h1 : makeAssemblyInputDetector = .ok fixtureDetector := createDetector_fixture
  have h2 : makeDarkImage zeroImage 2 40 = .ok darkWitnessImage := by
    simp only [makeDarkImage, h1, Except.map]
    rfl
  have h3 : fixtureAmp0 ∈ fixtureDetector.amps := List.get_mem _ _ _
  have h4 : fixtureAmp0.bbox.Mem (0, 0) := by decide
  exact ⟨h1, h2, h3, h4,
    makeDark_science_pixels zeroImage 2 40 fixtureDetector darkWitnessImage fixtureAmp0
      (0, 0) h1 h2 h3 h4⟩

/-- Witness for C6 at the first amplifier's pixel `(0, 0)`. -/
theorem makeFlat_pixels_witness :
    makeAssemblyInputDetector = .ok fixtureDetector ∧
    makeFlatImage zeroImage 1 = .ok flatWitnessImage ∧
    fixtureAmp0 ∈ fixtureDetector.amps ∧
    fixtureAmp0.bbox.Mem (0, 0) ∧
    flatWitnessImage (0, 0)
      = (1 - 1 * ((0 - fixtureAmp0.bbox.y0 : Int) : ℚ) / ((fixtureAmp0.bbox.h : ℚ) - 1))
          / fixtureAmp0.gain := by
  have h1 : makeAssemblyInputDetector = .ok fixtureDetector := createDetector_fixture
  have h2 : makeFlatImage zeroImage 1 = .ok flatWitnessImage := by
    simp only [makeFlatImage, h1, Except.map]
    rfl
  have h3 : fixtureAmp0 ∈ fixtureDetector.amps := List.get_mem _ _ _
  have h4 : fixtureAmp0.bbox.Mem (0, 0) := by decide
  exact ⟨h1, h2, h3, h4,
    makeFlat_pixels zeroImage 1 fixtureDetector flatWitnessImage fixtureAmp0 (0, 0)
      h1 h2 h3 h4⟩

/-- Witness for C3 at the first amplifier's raw-data pixel `(1, 4)` and
horizontal-overscan pixel `(513, 4)`. -/
theorem makeRaw_pixels_witness :
    makeAssemblyInputDetector = .ok fixtureDetector ∧
    makeRawImage zeroImage 2 1000 1 15 = .ok rawWitnessImage ∧
    fixtureAmp0 ∈ fixtureDetector.amps ∧
    fixtureAmp0.rawDataBBox.Mem (1, 4) ∧
    rawWitnessImage (1, 4)
      = (5000 * (1 - 1 * ((4 - fixtureAmp0.rawDataBBox.y0 : Int) : ℚ)
            / ((fixtureAmp0.rawDataBBox.h : ℚ) - 1)) + 2 * 15) / fixtureAmp0.gain + 1000 ∧
    fixtureAmp0.rawHOverscanBBox.Mem (513, 4) ∧
    rawWitnessImage (513, 4) = 1000 := by
  have h1 : makeAssemblyInputDetector = .ok fixtureDetector := createDetector_fixture
  have h2 : makeRawImage zeroImage 2 1000 1 15 = .ok rawWitnessImage := by
    simp only [makeRawImage, h1, Except.map]
    rfl
  have h3 : fixtureAmp0 ∈ fixtureDetector.amps := List.get_mem _ _ _
  have h4 : fixtureAmp0.rawDataBBox.Mem (1, 4) := by decide
  have h5 : fixtureAmp0.rawHOverscanBBox.Mem (513, 4) := by decide
  exact ⟨h1, h2, h3, h4,
    (makeRaw_pixels zeroImage 2 1000 1 15 fixtureDetector rawWitnessImage fixtureAmp0
      (1, 4) h1 h2 h3).1 h4,
    h5,
    (makeRaw_pixels zeroImage 2 1000 1 15 fixtureDetector rawWitnessImage fixtureAmp0
      (513, 4) h1 h2 h3).2 h5⟩

/-- C3 counterexample to the claim as stated: with `darkval = 0`,
`oscan = 1000`, `gradient = 0`, `exptime = 0`, the science pixel `(1, 4)` of
the first amplifier (gain 1) holds `6000 = 5000 + oscan`, not the
`(5000 * 1 + 0) / 1 = 5000` the claimed formula gives: `makeRaw` adds the
overscan pedestal to the science pixels as well. -/
theorem makeRaw_science_pixel_cex :
    makeRawImage zeroImage 0 1000 0 0 = .ok rawCexImage ∧
    rawCexImage (1, 4) = 6000 ∧ (6000 : ℚ) ≠ 5000 := by
  have h1 : makeAssemblyInputDetector = .ok fixtureDetector := createDetector_fixture
  refine ⟨by simp only [makeRawImage, h1, Except.map]; rfl, ?_, by norm_num⟩
  have hev := foldl_update_eval (rawAmpUpdate 0 1000 0 0)
      (fun a q => a.rawDataBBox.Mem q ∨ a.rawHOverscanBBox.Mem q)
      (fun a q => if a.rawHOverscanBBox.Mem q then 1000 else rawDataValue 0 1000 0 0 a q)
      (rawAmpUpdate_untouched 0 1000 0 0) (rawAmpUpdate_value 0 1000 0 0)
      fixtureAmps (assembledBase zeroImage) (1, 4) fixtureAmp0
      fixtureAmps_raw_pairwise (List.get_mem _ _ _) (Or.inl (by decide))
  rw [show rawCexImage (1, 4)
      = fixtureAmps.foldl (rawAmpUpdate 0 1000 0 0) (assembledBase zeroImage) (1, 4) from rfl,
    hev]
  norm_num [rawDataValue, fixtureAmp0, fixtureAmps, List.get, Box.Mem]
